import Mathlib

/-!
Verification development for the LUMEN multi-channel transaction-ingestion
pipeline.  The definitions below are a shallow embedding of the Python source:

* `app/api/v1/endpoints/n8n_webhooks.py` (SMS webhook channel),
* `app/api/v1/endpoints/ingestion.py` (upload and manual-entry channels),
* `app/services/gmail_monitor_service.py` (background Gmail poller),
* `app/services/gmail_service.py` (email parsing and AI/regex extraction).

Regular-expression searches from the source are re-implemented as explicit
character-list scanners with the same leftmost-match and backtracking
behaviour on the pattern alphabets involved.  External collaborators (the
AI classification service, OCR, the mailbox API, the persistence layer) are
modelled as injected outcome values, following the interface contracts in
the specification.
-/

namespace Lumen

set_option maxRecDepth 200000

/-! ## Character and string utilities -/

abbrev Chars := List Char

def toCh (s : String) : Chars := s.data

/-- ASCII lowering, mirroring `str.lower()` / `re.IGNORECASE` on the
ASCII alphabets used by the source patterns. -/
def lowerChars (s : String) : Chars := s.data.map Char.toLower

/-- Python `\s` character class. -/
def isWsCh (c : Char) : Bool :=
  c = ' ' || c = '\t' || c = '\n' || c = '\r' || c = '\x0b' || c = '\x0c'

def isDigitCh (c : Char) : Bool := '0' ≤ c && c ≤ '9'

def isUpperCh (c : Char) : Bool := 'A' ≤ c && c ≤ 'Z'

def isLowerCh (c : Char) : Bool := 'a' ≤ c && c ≤ 'z'

/-- Python `\w` character class (ASCII). -/
def isWordCh (c : Char) : Bool :=
  isLowerCh c || isUpperCh c || isDigitCh c || c = '_'

def isNlCh (c : Char) : Bool := c = '\n' || c = '\r'

/-- Consume a literal, returning the remaining input on success. -/
def dropLit : Chars → Chars → Option Chars
  | [], cs => some cs
  | _, [] => none
  | l :: ls, c :: cs => if c = l then dropLit ls cs else none

/-- Consume one optional character (a greedy `X?`). -/
def dropOptChar (x : Char) : Chars → Chars
  | [] => []
  | c :: cs => if c = x then cs else c :: cs

def containsLit (l : Chars) : Chars → Bool
  | [] => (dropLit l []).isSome
  | c :: cs => (dropLit l (c :: cs)).isSome || containsLit l cs

/-- SQL case-insensitive contains (ILIKE with percent wildcards) as used
by the merchant lookups. -/
def ilikeContains (hay needle : String) : Bool :=
  containsLit (lowerChars needle) (lowerChars hay)

/-- Python `str.strip()`. -/
def trimCh (cs : Chars) : Chars :=
  ((cs.dropWhile isWsCh).reverse.dropWhile isWsCh).reverse

/-- Python `s.lower().strip()`, the merchant dedup key of the source. -/
def strKey (s : String) : String := ⟨trimCh (lowerChars s)⟩

/-! ## Decimal numbers

The source manipulates amounts and confidences as Python floats obtained
from decimal strings and compares them with `<=`/`<`.  They are modelled
exactly as decimal fractions `num / 10^exp`, with order and numeric
equality decided by integer cross-multiplication. -/

def pow10 : Nat → Int
  | 0 => 1
  | n + 1 => 10 * pow10 n

structure Dec where
  num : Int
  exp : Nat
deriving DecidableEq

/-- Numeric equality `a.num / 10^a.exp = b.num / 10^b.exp`. -/
def Dec.beq (a b : Dec) : Bool := a.num * pow10 b.exp = b.num * pow10 a.exp

def Dec.ble (a b : Dec) : Bool := a.num * pow10 b.exp ≤ b.num * pow10 a.exp

def Dec.blt (a b : Dec) : Bool := a.num * pow10 b.exp < b.num * pow10 a.exp

def Dec.ofNat (n : Nat) : Dec := ⟨n, 0⟩

/-- Leftmost search for a position predicate (`re.search`). -/
def scanPos (f : Chars → Bool) : Chars → Bool
  | [] => f []
  | c :: cs => f (c :: cs) || scanPos f cs

/-- Leftmost search carrying the previous character (for `\b`). -/
def scanPrev (f : Option Char → Chars → Bool) : Option Char → Chars → Bool
  | p, [] => f p []
  | p, c :: cs => f p (c :: cs) || scanPrev f (some c) cs

/-- Leftmost search returning a capture. -/
def scanOpt (f : Chars → Option α) : Chars → Option α
  | [] => f []
  | c :: cs => (f (c :: cs)).orElse (fun _ => scanOpt f cs)

/-- One-or-more whitespace (`\s+`), greedy. -/
def wsPlus (cs : Chars) : Option Chars :=
  match cs with
  | c :: r => if isWsCh c then some (r.dropWhile isWsCh) else none
  | [] => none

/-! ## SMS field extraction (`n8n_sms_webhook`, n8n_webhooks.py lines 90-230)

Each Python `re.search` call is rendered as a position matcher plus a
leftmost scan.  Optional groups whose success can doom the remainder are
rendered with explicit alternation, reproducing regex backtracking. -/

/-- Currency marker `(?:rs\.?|₹|inr)` at a position, alternatives in
source order. -/
def dropCurrency (cs : Chars) : Option Chars :=
  match dropLit (toCh "rs") cs with
  | some r => some (dropOptChar '.' r)
  | none =>
    match dropLit (toCh "₹") cs with
    | some r => some r
    | none => dropLit (toCh "inr") cs

/-- Numeric token `([0-9,]+\.?[0-9]*)`, greedy; returns capture and rest. -/
def numTok (cs : Chars) : Option (Chars × Chars) :=
  let p := cs.span (fun c => isDigitCh c || c = ',')
  if p.1 = [] then none
  else
    match p.2 with
    | '.' :: r2 =>
      let q := r2.span isDigitCh
      some (p.1 ++ '.' :: q.1, q.2)
    | _ => some (p.1, p.2)

def digitsVal (ds : Chars) : Nat :=
  ds.foldl (fun a c => 10 * a + (c.toNat - 48)) 0

/-- Python `float(tok.replace(',', ''))`: `none` when the cleaned token has
no digit (where `float` would raise). -/
def tokToDec (tok : Chars) : Option Dec :=
  let s := tok.filter (fun c => c ≠ ',')
  let ip := s.takeWhile (fun c => c ≠ '.')
  let fp := (s.dropWhile (fun c => c ≠ '.')).drop 1
  if s.any isDigitCh then
    some ⟨(digitsVal ip : Int) * pow10 fp.length + (digitsVal fp : Int), fp.length⟩
  else none

/-- Outcome of an amount regex plus `float` conversion: no match, a raised
conversion error, or a value. -/
inductive AmountRes where
  | nomatch
  | crash
  | val (q : Dec)
deriving DecidableEq

def tokAmount (t : Chars) : AmountRes :=
  match tokToDec t with
  | some q => .val q
  | none => .crash

/-- `(?:rs\.?|₹|inr)\s*([0-9,]+\.?[0-9]*)` at a position. -/
def amountP1At (cs : Chars) : Option Chars :=
  match dropCurrency cs with
  | none => none
  | some r => (numTok (r.dropWhile isWsCh)).map (·.1)

/-- `([0-9,]+\.?[0-9]*)\s*(?:rs\.?|₹|inr)` at a position. -/
def amountP2At (cs : Chars) : Option Chars :=
  match numTok cs with
  | none => none
  | some (t, rest) =>
    if (dropCurrency (rest.dropWhile isWsCh)).isSome then some t else none

/-- Amount extraction loop (n8n_webhooks.py lines 125-133): ordered
patterns, first match wins, then `float` conversion. -/
def smsAmount (body : String) : AmountRes :=
  let cs := lowerChars body
  match scanOpt amountP1At cs with
  | some t => tokAmount t
  | none =>
    match scanOpt amountP2At cs with
    | some t => tokAmount t
    | none => .nomatch

/-- `credited?|received|deposited` search (line 136); note `credited?`
requires the stem `credite`. -/
def smsTxnType (body : String) : String :=
  let cs := lowerChars body
  if containsLit (toCh "credite") cs || containsLit (toCh "received") cs ||
      containsLit (toCh "deposited") cs
  then "credit" else "debit"

def upiChClass (c : Char) : Bool :=
  isLowerCh c || isDigitCh c || c = '.' || c = '_' || c = '-'

/-- `([a-z0-9._-]+@[a-z]+)` at a position. -/
def upiCapture (cs : Chars) : Option Chars :=
  let p := cs.span upiChClass
  if p.1 = [] then none
  else
    match p.2 with
    | '@' :: r2 =>
      let q := r2.span isLowerCh
      if q.1 = [] then none else some (p.1 ++ '@' :: q.1)
    | _ => none

/-- `(?:to|from)\s+(?:vpa\s+)?([a-z0-9._-]+@[a-z]+)` at a position
(line 140). -/
def upiAt (cs : Chars) : Option Chars :=
  match (dropLit (toCh "to") cs).orElse (fun _ => dropLit (toCh "from") cs) with
  | none => none
  | some r1 =>
    match wsPlus r1 with
    | none => none
    | some r2 =>
      (match dropLit (toCh "vpa") r2 with
       | some r3 =>
         match wsPlus r3 with
         | some r4 => upiCapture r4
         | none => none
       | none => none).orElse (fun _ => upiCapture r2)

def smsUpi (body : String) : Option String :=
  (scanOpt upiAt (lowerChars body)).map (⟨·⟩)

/-- `[A-Z][a-z]+` word. -/
def capWord (cs : Chars) : Option (Chars × Chars) :=
  match cs with
  | c :: r =>
    if isUpperCh c then
      let p := r.span isLowerCh
      if p.1 = [] then none else some (c :: p.1, p.2)
    else none
  | [] => none

/-- Greedy `(?:\s+[A-Z][a-z]+)*` continuation (capture extension). -/
def capWordsRest : Nat → Chars → Chars
  | 0, _ => []
  | fuel + 1, cs =>
    let p := cs.span isWsCh
    if p.1 = [] then []
    else
      match capWord p.2 with
      | some (w, r) => p.1 ++ w ++ capWordsRest fuel r
      | none => []

/-- `(?:to|at|from)\s+([A-Z][a-z]+(?:\s+[A-Z][a-z]+)*)` at a position
(case sensitive, line 148). -/
def merchantCapAt (cs : Chars) : Option Chars :=
  match ((dropLit (toCh "to") cs).orElse (fun _ => dropLit (toCh "at") cs)).orElse
      (fun _ => dropLit (toCh "from") cs) with
  | none => none
  | some r1 =>
    match wsPlus r1 with
    | none => none
    | some r2 =>
      match capWord r2 with
      | some (w, r) => some (w ++ capWordsRest r.length r)
      | none => none

/-- `(?:to|at|from)\s+([A-Z0-9]+)` at a position (line 149). -/
def merchantCapsAt (cs : Chars) : Option Chars :=
  match ((dropLit (toCh "to") cs).orElse (fun _ => dropLit (toCh "at") cs)).orElse
      (fun _ => dropLit (toCh "from") cs) with
  | none => none
  | some r1 =>
    match wsPlus r1 with
    | none => none
    | some r2 =>
      let p := r2.span (fun c => isUpperCh c || isDigitCh c)
      if p.1 = [] then none else some p.1

/-- Merchant-name fallback loop (lines 146-155), applied to the original
(case-preserved) body. -/
def smsMerchantCap (body : String) : Option String :=
  match scanOpt merchantCapAt body.data with
  | some w => some ⟨w⟩
  | none => (scanOpt merchantCapsAt body.data).map (⟨·⟩)

/-- `[:\s]*([0-9]+)`. -/
def digitsCap (t : Chars) : Option Chars :=
  let r := t.dropWhile (fun c => c = ':' || isWsCh c)
  let p := r.span isDigitCh
  if p.1 = [] then none else some p.1

/-- `upi\s+ref(?:erence)?[:\s]*([0-9]+)` at a position. -/
def refP1At (cs : Chars) : Option Chars :=
  match dropLit (toCh "upi") cs with
  | none => none
  | some r0 =>
    match wsPlus r0 with
    | none => none
    | some r1 =>
      match dropLit (toCh "ref") r1 with
      | none => none
      | some r2 =>
        (match dropLit (toCh "erence") r2 with
         | some r3 => digitsCap r3
         | none => none).orElse (fun _ => digitsCap r2)

/-- `ref(?:erence)?(?:\s*no\.?)?[:\s]*([0-9]+)` at a position. -/
def refP2At (cs : Chars) : Option Chars :=
  match dropLit (toCh "ref") cs with
  | none => none
  | some r0 =>
    let noBranch (t : Chars) : Option Chars :=
      (match dropLit (toCh "no") (t.dropWhile isWsCh) with
       | some r2 => digitsCap (dropOptChar '.' r2)
       | none => none).orElse (fun _ => digitsCap t)
    (match dropLit (toCh "erence") r0 with
     | some r1 => noBranch r1
     | none => none).orElse (fun _ => noBranch r0)

/-- `txn[:\s]*([0-9]+)` at a position. -/
def refP3At (cs : Chars) : Option Chars :=
  match dropLit (toCh "txn") cs with
  | none => none
  | some r0 => digitsCap r0

/-- Reference-number extraction loop (lines 157-167). -/
def smsReference (body : String) : Option String :=
  let cs := lowerChars body
  (((scanOpt refP1At cs).orElse (fun _ => scanOpt refP2At cs)).orElse
    (fun _ => scanOpt refP3At cs)).map (⟨·⟩)

/-- `a/?c\s*(?:no\.?)?\s*[x*]*([0-9]{4})` at a position (line 170). -/
def acctCapAt (cs : Chars) : Option Chars :=
  match dropLit (toCh "a") cs with
  | none => none
  | some r0 =>
    match dropLit (toCh "c") (dropOptChar '/' r0) with
    | none => none
    | some r1 =>
      let r2 := r1.dropWhile isWsCh
      let tailCap (t : Chars) : Option Chars :=
        let u := (t.dropWhile isWsCh).dropWhile (fun c => c = 'x' || c = '*')
        let p := u.span isDigitCh
        if 4 ≤ p.1.length then some (p.1.take 4) else none
      (match dropLit (toCh "no") r2 with
       | some r3 => tailCap (dropOptChar '.' r3)
       | none => none).orElse (fun _ => tailCap r2)

def smsAccount (body : String) : Option String :=
  (scanOpt acctCapAt (lowerChars body)).map (⟨·⟩)

/-- `[:\s]*(?:rs\.?|₹)?\s*([0-9,]+\.?[0-9]*)` tail of the balance
pattern. -/
def balTail (t : Chars) : Option Chars :=
  let r1 := t.dropWhile (fun c => c = ':' || isWsCh c)
  let r2 :=
    match dropLit (toCh "rs") r1 with
    | some u => dropOptChar '.' u
    | none =>
      match dropLit (toCh "₹") r1 with
      | some u => u
      | none => r1
  (numTok (r2.dropWhile isWsCh)).map (·.1)

/-- `(?:bal|balance)[:\s]*(?:rs\.?|₹)?\s*([0-9,]+\.?[0-9]*)` at a
position (line 175). -/
def balAt (cs : Chars) : Option Chars :=
  match dropLit (toCh "bal") cs with
  | none => none
  | some r0 =>
    (balTail r0).orElse (fun _ =>
      match dropLit (toCh "ance") r0 with
      | some r1 => balTail r1
      | none => none)

def smsBalance (body : String) : AmountRes :=
  match scanOpt balAt (lowerChars body) with
  | some t => tokAmount t
  | none => .nomatch

/-- Whole-word match `\bLIT\b` at a position. -/
def wordAt (lit : Chars) (prev : Option Char) (cs : Chars) : Bool :=
  (match prev with | none => true | some p => !isWordCh p) &&
  (match dropLit lit cs with
   | none => false
   | some r =>
     match r with
     | c :: _ => !isWordCh c
     | [] => true)

def containsWord (lit : Chars) (cs : Chars) : Bool :=
  scanPrev (wordAt lit) none cs

inductive PayChannel where
  | upi | imps | neft | card | bankTransfer | netbanking | wallet | cash | unknown
deriving DecidableEq

/-- Payment-channel detection for SMS (lines 222-229): default UPI, then
word-boundary checks in source order. -/
def smsChannel (body : String) : PayChannel :=
  let cs := lowerChars body
  if containsWord (toCh "imps") cs then .imps
  else if containsWord (toCh "neft") cs then .neft
  else if containsWord (toCh "card") cs then .card
  else .upi

/-- Payment-keyword pre-filter (`payment_keywords`, lines 91-101). -/
def rsNumAt (prev : Option Char) (cs : Chars) : Bool :=
  (match prev with | none => true | some p => !isWordCh p) &&
  (match dropLit (toCh "rs") cs with
   | none => false
   | some r =>
     match (dropOptChar '.' r).dropWhile isWsCh with
     | c :: _ => isDigitCh c
     | [] => false)

def rupeeNumAt (cs : Chars) : Bool :=
  match dropLit (toCh "₹") cs with
  | none => false
  | some r =>
    match r.dropWhile isWsCh with
    | c :: _ => isDigitCh c
    | [] => false

def inrNumAt (cs : Chars) : Bool :=
  match dropLit (toCh "inr") cs with
  | none => false
  | some r =>
    match r.dropWhile isWsCh with
    | c :: _ => isDigitCh c
    | [] => false

def acctNumAt (cs : Chars) : Bool :=
  match dropLit (toCh "a") cs with
  | none => false
  | some r0 =>
    match dropLit (toCh "c") (dropOptChar '/' r0) with
    | none => false
    | some r1 =>
      let r2 := r1.dropWhile isWsCh
      let tailOk (t : Chars) : Bool :=
        match (t.dropWhile isWsCh).dropWhile (fun c => c = 'x' || c = '*') with
        | c :: _ => isDigitCh c
        | [] => false
      (match dropLit (toCh "no") r2 with
       | some r3 => tailOk (dropOptChar '.' r3)
       | none => false) || tailOk r2

def refNumAt (cs : Chars) : Bool :=
  match dropLit (toCh "ref") cs with
  | none => false
  | some r0 =>
    let refTail (t : Chars) : Bool :=
      match t.dropWhile (fun c => c = ':' || isWsCh c) with
      | c :: _ => isDigitCh c
      | [] => false
    let branches (t : Chars) : Bool :=
      (match dropLit (toCh "no") (t.dropWhile isWsCh) with
       | some r2 => refTail (dropOptChar '.' r2)
       | none => false) || refTail t
    (match dropLit (toCh "erence") r0 with
     | some r1 => branches r1
     | none => false) || branches r0

/-- Plain-substring payment keywords of the filter, in source order
(`debited?` and `credited?` require their seven-letter stems). -/
def smsKeywordLits : List Chars :=
  [toCh "debite", toCh "credite", toCh "paid", toCh "received", toCh "sent",
   toCh "transferred", toCh "upi", toCh "imps", toCh "neft", toCh "rtgs",
   toCh "txn", toCh "transaction", toCh "payment"]

/-- `is_payment` (line 101): true when any of the fixed case-insensitive
patterns matches the body. -/
def smsIsPayment (body : String) : Bool :=
  let cs := lowerChars body
  scanPrev rsNumAt none cs || scanPos rupeeNumAt cs || scanPos inrNumAt cs ||
  smsKeywordLits.any (fun k => containsLit k cs) ||
  scanPos acctNumAt cs || scanPos refNumAt cs

/-! ## SMS-FW envelope parsing (lines 72-87) -/

/-- `\*{8,}[\r\n]+(.+)` with DOTALL at a position. -/
def starsBodyAt (cs : Chars) : Option Chars :=
  let p := cs.span (fun c => c = '*')
  if p.1.length < 8 then none
  else
    let q := p.2.span isNlCh
    if q.1 = [] then none
    else if q.2 ≠ [] then some q.2
    else if 2 ≤ q.1.length then some (q.1.drop 1)
    else none

/-- SMS body: text after the asterisk delimiter, stripped; the raw
payload when the delimiter is absent. -/
def smsBodyOf (raw : String) : String :=
  match scanOpt starsBodyAt raw.data with
  | some b => ⟨trimCh b⟩
  | none => raw

/-- Non-greedy `\((.+?)\)` body: the capture preceding the first viable
closing parenthesis, newlines excluded. -/
def fromCap2 (acc : Chars) : Chars → Option Chars
  | [] => none
  | c :: cs =>
    if isNlCh c then none
    else if c = ')' && acc ≠ [] then some acc.reverse
    else fromCap2 (c :: acc) cs

/-- Non-greedy tail of the sender pattern (first capture up to the
quote-space-parenthesis delimiter, then the parenthesised capture), with
backtracking into the first capture. -/
def fromCap1 (acc : Chars) : Chars → Option (Chars × Chars)
  | [] => none
  | c :: cs =>
    (if acc ≠ [] then
      match dropLit ['\'', ' ', '('] (c :: cs) with
      | some r => (fromCap2 [] r).map (fun c2 => (acc.reverse, c2))
      | none => none
     else none).orElse (fun _ =>
      if isNlCh c then none else fromCap1 (c :: acc) cs)

/-- The sender header pattern (literal, then the two non-greedy captures)
at a position. -/
def fromAt (cs : Chars) : Option (Chars × Chars) :=
  match dropLit (toCh "From: ") cs with
  | none => none
  | some r =>
    match r with
    | '\'' :: r2 => fromCap1 [] r2
    | _ => none

/-- Sender name parsed from the forwarding envelope. -/
def smsSenderName (raw : String) : Option String :=
  (scanOpt fromAt raw.data).map (fun p => ⟨p.1⟩)

/-- Bundle of the per-field SMS extraction results, as computed by
`n8n_sms_webhook` before validation. -/
structure SmsFields where
  amount : AmountRes
  txnType : String
  upiId : Option String
  merchant : Option String
  reference : Option String
  account : Option String
  balance : AmountRes
  channel : PayChannel
deriving DecidableEq

def smsFieldsOf (body : String) : SmsFields :=
  let upi := smsUpi body
  { amount := smsAmount body
    txnType := smsTxnType body
    upiId := upi
    merchant :=
      match upi with
      | some u => some ⟨u.data.takeWhile (fun c => c ≠ '@')⟩
      | none => smsMerchantCap body
    reference := smsReference body
    account := smsAccount body
    balance := smsBalance body
    channel := smsChannel body }

/-! ## Email extraction (`GmailService._extract_transaction_data` and
`_fallback_regex_extraction`, gmail_service.py lines 233-450)

The AI collaborator is external; its outcome is injected: a collaborator
error, a malformed (unparseable) response, or a parsed verdict. -/

/-- Parsed transaction dict produced by the email channel. -/
structure TxData where
  amount : Option Dec
  merchant : Option String
  transactionType : Option String
  paymentMethod : Option String
  referenceNumber : Option String
  geminiConfidence : Option Dec
deriving DecidableEq

/-- Structured verdict parsed from the AI response (absent JSON keys are
`none`; `is_transaction` defaults to false via `.get`). -/
structure Verdict where
  isTransaction : Bool
  amount : Option Dec
  merchant : Option String
  transactionType : Option String
  paymentMethod : Option String
  referenceNumber : Option String
  confidence : Option Dec
deriving DecidableEq

/-- Outcome of the AI-extraction call. -/
inductive AIOutcome where
  | collaboratorError
  | malformed
  | ok (v : Verdict)
deriving DecidableEq

/-- Keyword pre-check list (gmail_service.py line 244), verbatim including
the mis-encoded rupee literal. -/
def emailKeywords : List String :=
  ["payment", "transaction", "debited", "credited", "upi", "imps", "neft",
   "purchase", "receipt", "rs.", "inr", "‚Çπ", "bank", "transfer", "paid",
   "amount"]

def hasEmailKeyword (text : String) : Bool :=
  emailKeywords.any (fun k => containsLit k.data (lowerChars text))

/-- Fallback capture `(\d{1,3}(?:,\d{3})*(?:\.\d{2})?)` helpers. -/
def take3Digits : Chars → Option (Chars × Chars)
  | a :: b :: c :: r =>
    if isDigitCh a && isDigitCh b && isDigitCh c then some ([a, b, c], r) else none
  | _ => none

def fbCommaGroups : Nat → Chars → Chars × Chars
  | 0, cs => ([], cs)
  | fuel + 1, cs =>
    match cs with
    | ',' :: r =>
      (match take3Digits r with
       | some (d, r2) =>
         let p := fbCommaGroups fuel r2
         (',' :: d ++ p.1, p.2)
       | none => ([], ',' :: r))
    | _ => ([], cs)

def fbDecimal : Chars → Chars
  | '.' :: a :: b :: _ => if isDigitCh a && isDigitCh b then ['.', a, b] else []
  | _ => []

def fbNumCap (cs : Chars) : Option Chars :=
  let p := cs.span isDigitCh
  if p.1 = [] then none
  else
    let h := p.1.take 3
    let rest := p.1.drop 3 ++ p.2
    let q := fbCommaGroups rest.length rest
    some (h ++ q.1 ++ fbDecimal q.2)

/-- Fallback currency marker `(?:rs\.?|inr|‚Çπ)` (mis-encoded rupee kept
verbatim from the source). -/
def fbCurrency (cs : Chars) : Option Chars :=
  match dropLit (toCh "rs") cs with
  | some r => some (dropOptChar '.' r)
  | none =>
    match dropLit (toCh "inr") cs with
    | some r => some r
    | none => dropLit (toCh "‚Çπ") cs

/-- `(?:rs\.?|inr|‚Çπ)\s*(num)` at a position. -/
def fbAmt1At (cs : Chars) : Option Chars :=
  match fbCurrency cs with
  | none => none
  | some r => fbNumCap (r.dropWhile isWsCh)

/-- `[:\s]*(?:rs\.?|inr|‚Çπ)?\s*(num)` common tail. -/
def fbAmtTail (t : Chars) : Option Chars :=
  let r1 := t.dropWhile (fun c => c = ':' || isWsCh c)
  let r2 :=
    match fbCurrency r1 with
    | some u => u
    | none => r1
  fbNumCap (r2.dropWhile isWsCh)

/-- `amount[:\s]*(?:rs\.?|inr|‚Çπ)?\s*(num)` at a position. -/
def fbAmt2At (cs : Chars) : Option Chars :=
  match dropLit (toCh "amount") cs with
  | none => none
  | some r => fbAmtTail r

/-- `(?:debited|credited|paid)[:\s]*(?:rs\.?|inr|‚Çπ)?\s*(num)` at a
position. -/
def fbAmt3At (cs : Chars) : Option Chars :=
  match ((dropLit (toCh "debited") cs).orElse
      (fun _ => dropLit (toCh "credited") cs)).orElse
      (fun _ => dropLit (toCh "paid") cs) with
  | none => none
  | some r => fbAmtTail r

/-- Fallback amount-extraction loop (gmail_service.py lines 368-382). -/
def fbAmount (tl : Chars) : Option Dec :=
  match scanOpt fbAmt1At tl with
  | some t => tokToDec t
  | none =>
    match scanOpt fbAmt2At tl with
    | some t => tokToDec t
    | none =>
      match scanOpt fbAmt3At tl with
      | some t => tokToDec t
      | none => none

/-- Fallback transaction-type detection (lines 385-388). -/
def fbType (tl : Chars) : Option String :=
  if containsLit (toCh "debited") tl || containsLit (toCh "debit") tl ||
      containsLit (toCh "paid") tl then some "debit"
  else if containsLit (toCh "credited") tl || containsLit (toCh "credit") tl ||
      containsLit (toCh "received") tl then some "credit"
  else none

/-- Capture class `[A-Za-z0-9\s&\.-]`. -/
def fbM2Class (c : Char) : Bool :=
  isLowerCh c || isUpperCh c || isDigitCh c || isWsCh c || c = '&' || c = '.' || c = '-'

/-- Wide terminator `(?:\s+on|\s+for|\s+via|\s+upi|\.|\n)` at a
boundary. -/
def fbTermWide (cs : Chars) : Bool :=
  (match wsPlus cs with
   | some r =>
     (dropLit (toCh "on") r).isSome || (dropLit (toCh "for") r).isSome ||
     (dropLit (toCh "via") r).isSome || (dropLit (toCh "upi") r).isSome
   | none => false) ||
  (match cs with
   | c :: _ => c = '.' || c = '\n'
   | [] => false)

/-- Narrow terminator `(?:\s+on|\.|\n)` at a boundary. -/
def fbTermNarrow (cs : Chars) : Bool :=
  (match wsPlus cs with
   | some r => (dropLit (toCh "on") r).isSome
   | none => false) ||
  (match cs with
   | c :: _ => c = '.' || c = '\n'
   | [] => false)

/-- Non-greedy `([A-Za-z0-9\s&\.-]+?)` up to the first boundary where the
terminator matches. -/
def fbCapNG (term : Chars → Bool) (acc : Chars) : Chars → Option Chars
  | [] => none
  | c :: cs =>
    if fbM2Class c then
      if term cs then some (acc ++ [c]) else fbCapNG term (acc ++ [c]) cs
    else none

/-- Fallback merchant pattern `(?:to|at|from)\s+(?:vpa\s+)?(upi-id)` at a
position (line 392). -/
def fbM1At (cs : Chars) : Option Chars :=
  match ((dropLit (toCh "to") cs).orElse (fun _ => dropLit (toCh "at") cs)).orElse
      (fun _ => dropLit (toCh "from") cs) with
  | none => none
  | some r1 =>
    match wsPlus r1 with
    | none => none
    | some r2 =>
      (match dropLit (toCh "vpa") r2 with
       | some r3 =>
         match wsPlus r3 with
         | some r4 => upiCapture r4
         | none => none
       | none => none).orElse (fun _ => upiCapture r2)

/-- `(?:to|at|from)\s+(cap)(wide-term)` at a position (line 393). -/
def fbM2At (cs : Chars) : Option Chars :=
  match ((dropLit (toCh "to") cs).orElse (fun _ => dropLit (toCh "at") cs)).orElse
      (fun _ => dropLit (toCh "from") cs) with
  | none => none
  | some r1 =>
    match wsPlus r1 with
    | none => none
    | some r2 => fbCapNG fbTermWide [] r2

/-- `LIT[:\s]+(cap)(narrow-term)` at a position (lines 394-395). -/
def fbLitCapAt (lit : Chars) (cs : Chars) : Option Chars :=
  match dropLit lit cs with
  | none => none
  | some r1 =>
    match r1 with
    | c :: r2 =>
      if c = ':' || isWsCh c then
        fbCapNG fbTermNarrow [] ((c :: r2).drop 1 |>.dropWhile (fun d => d = ':' || isWsCh d))
      else none
    | [] => none

/-- `paid to\s+(cap)(narrow-term)` at a position (line 396). -/
def fbM5At (cs : Chars) : Option Chars :=
  match dropLit (toCh "paid to") cs with
  | none => none
  | some r1 =>
    match wsPlus r1 with
    | none => none
    | some r2 => fbCapNG fbTermNarrow [] r2

/-- Fallback merchant loop (lines 391-408): first pattern whose stripped
capture is longer than 2 characters; an `@`-identifier is cut at the
`@`. -/
def fbMerchantLoop (tl : Chars) : Option String :=
  let step (cap : Option Chars) : Option String :=
    match cap with
    | some w =>
      let m := trimCh w
      if 2 < m.length then
        some ((String.mk (m.takeWhile (fun c => c ≠ '@'))).take 100)
      else none
    | none => none
  (((((step (scanOpt fbM1At tl)).orElse
      (fun _ => step (scanOpt fbM2At tl))).orElse
      (fun _ => step (scanOpt (fbLitCapAt (toCh "merchant")) tl))).orElse
      (fun _ => step (scanOpt (fbLitCapAt (toCh "payee")) tl))).orElse
      (fun _ => step (scanOpt fbM5At tl)))

def bankSenders : List String := ["bank", "icici", "hdfc", "sbi", "axis", "kotak"]

/-- Fallback merchant including the bank-sender default (lines 411-415). -/
def fbMerchant (tl : Chars) (sender : String) : String :=
  match fbMerchantLoop tl with
  | some m => m
  | none =>
    if bankSenders.any (fun b => containsLit b.data (lowerChars sender)) then
      "Bank Transaction"
    else "Unknown"

/-- Fallback payment method (lines 418-427). -/
def fbPayMethod (tl : Chars) : Option String :=
  if containsLit (toCh "upi") tl then some "UPI"
  else if containsLit (toCh "card") tl then some "CARD"
  else if containsLit (toCh "imps") tl then some "IMPS"
  else if containsLit (toCh "neft") tl then some "NEFT"
  else if containsLit (toCh "netbanking") tl then some "NETBANKING"
  else none

/-- `[:\s#]*([A-Z0-9]{10,})` capture tail. -/
def fbRefCap (t : Chars) : Option Chars :=
  let r := t.dropWhile (fun c => c = ':' || isWsCh c || c = '#')
  let p := r.span (fun c => isUpperCh c || isDigitCh c)
  if 10 ≤ p.1.length then some p.1 else none

/-- `(?:ref|reference|transaction id|txn)[:\s#]*([A-Z0-9]{10,})` at a
position (line 431). -/
def fbRef1At (cs : Chars) : Option Chars :=
  (((match dropLit (toCh "ref") cs with
     | some r => fbRefCap r
     | none => none).orElse (fun _ =>
    match dropLit (toCh "reference") cs with
    | some r => fbRefCap r
    | none => none)).orElse (fun _ =>
    match dropLit (toCh "transaction id") cs with
    | some r => fbRefCap r
    | none => none)).orElse (fun _ =>
    match dropLit (toCh "txn") cs with
    | some r => fbRefCap r
    | none => none)

/-- `upi\s+ref[:\s]*([A-Z0-9]{10,})` at a position (line 432). -/
def fbRef2At (cs : Chars) : Option Chars :=
  match dropLit (toCh "upi") cs with
  | none => none
  | some r0 =>
    match wsPlus r0 with
    | none => none
    | some r1 =>
      match dropLit (toCh "ref") r1 with
      | none => none
      | some r2 =>
        let r3 := r2.dropWhile (fun c => c = ':' || isWsCh c)
        let p := r3.span (fun c => isUpperCh c || isDigitCh c)
        if 10 ≤ p.1.length then some p.1 else none

def fbReference (tl : Chars) : Option String :=
  ((scanOpt fbRef1At tl).orElse (fun _ => scanOpt fbRef2At tl)).map (⟨·⟩)

/-- `GmailService._fallback_regex_extraction` (lines 354-450): regex
extraction over the full text; `none` when no amount is found. -/
def fallbackRegexExtraction (text sender : String) : Option TxData :=
  let tl := lowerChars text
  match fbAmount tl with
  | none => none
  | some a =>
    some { amount := some a
           merchant := some (fbMerchant tl sender)
           transactionType := fbType tl
           paymentMethod := fbPayMethod tl
           referenceNumber := fbReference tl
           geminiConfidence := none }

/-- `GmailService._extract_transaction_data` (lines 233-352): keyword
pre-check, then the AI verdict gated by `is_transaction`, a positive
amount, and confidence at least 0.6; collaborator errors and malformed
responses fall back to regex extraction over the full text. -/
def extractTransactionData (subject body sender : String) (ai : AIOutcome) :
    Option TxData :=
  let text := subject ++ "\n" ++ body
  if !hasEmailKeyword text then none
  else
    match ai with
    | .collaboratorError => fallbackRegexExtraction text sender
    | .malformed => fallbackRegexExtraction text sender
    | .ok v =>
      if !v.isTransaction then none
      else
        match v.amount with
        | none => none
        | some a =>
          if a.ble ⟨0, 0⟩ then none
          else if (v.confidence.getD ⟨0, 0⟩).blt ⟨6, 1⟩ then none
          else
            some { amount := some a
                   merchant := some ((v.merchant.getD "Unknown").take 100)
                   transactionType := some (v.transactionType.getD "debit")
                   paymentMethod := some (v.paymentMethod.getD "UNKNOWN")
                   referenceNumber := v.referenceNumber
                   geminiConfidence := some (v.confidence.getD ⟨0, 0⟩) }

/-! ## Persistent data model

Record structures mirror the SQLAlchemy models as used by the endpoints:
owner references are the mutually exclusive `user_consumer_id` /
`user_business_id` pair.  A `DB` value holds the committed rows; every
flow returns the post-commit database, so an aborted request (rollback or
an exception raised before `commit`) returns the input database
unchanged. -/

inductive UserType where
  | consumer | business
deriving DecidableEq

structure Owner where
  id : Nat
  ty : UserType
deriving DecidableEq

inductive SrcType where
  | upload | gmail | sms | manual
deriving DecidableEq

structure Source where
  id : Nat
  userConsumerId : Option Nat
  userBusinessId : Option Nat
  sourceType : SrcType
  processed : Bool
deriving DecidableEq

structure Merchant where
  id : Nat
  userConsumerId : Option Nat
  userBusinessId : Option Nat
  nameNormalized : String
  nameVariants : List String
deriving DecidableEq

structure Txn where
  id : Nat
  userConsumerId : Option Nat
  userBusinessId : Option Nat
  userType : UserType
  sourceId : Nat
  merchantId : Nat
  amount : Dec
  merchantNameRaw : String
  category : String
  payChannel : PayChannel
  srcType : SrcType
  invoiceNo : Option String
  confirmed : Bool
  classificationConfidence : Dec
  ocrConfidence : Dec
deriving DecidableEq

structure DB where
  sources : List Source
  merchants : List Merchant
  txns : List Txn
  nextId : Nat
deriving DecidableEq

def emptyDB : DB := ⟨[], [], [], 0⟩

def ownerConsumerId (o : Owner) : Option Nat :=
  if o.ty = .consumer then some o.id else none

def ownerBusinessId (o : Owner) : Option Nat :=
  if o.ty = .business then some o.id else none

/-- The merchant record is owned by the given account. -/
def Merchant.ownedBy (m : Merchant) (o : Owner) : Bool :=
  match o.ty with
  | .consumer => m.userConsumerId = some o.id
  | .business => m.userBusinessId = some o.id

/-- Outcome of one call to the external classification collaborator:
either a response dict (whose keys may be absent) or a raised failure
(timeout, quota, transport error). -/
inductive ClassifyOutcome where
  | ok (category : Option String) (confidence : Option Dec)
  | fail
deriving DecidableEq

/-- `classification.get("category", "Unknown")` under the call-site
`try/except` fallback. -/
def coCategory : ClassifyOutcome → String
  | .ok c _ => c.getD "Unknown"
  | .fail => "Unknown"

/-- `classification.get("confidence", 0.0)` under the call-site
`try/except` fallback. -/
def coConfidence : ClassifyOutcome → Dec
  | .ok _ c => c.getD ⟨0, 0⟩
  | .fail => ⟨0, 0⟩

/-! ## Merchant resolution

One resolver per call site; the SMS, Gmail and manual-entry lookups
filter by the owning account, the upload lookup (ingestion.py lines
113-115) does not. -/

/-- Owner-scoped lookup: `name_normalized ILIKE %key%` and the owner
column filter. -/
def findMerchantScoped (db : DB) (o : Owner) (key : String) : Option Merchant :=
  db.merchants.find? (fun m => ilikeContains m.nameNormalized key && m.ownedBy o)

/-- Unscoped lookup of the upload endpoint: `name_normalized ILIKE %key%`
over every account. -/
def findMerchantAny (db : DB) (key : String) : Option Merchant :=
  db.merchants.find? (fun m => ilikeContains m.nameNormalized key)

/-- Get-or-create of the SMS webhook (n8n_webhooks.py lines 201-220). -/
def resolveMerchantSms (db : DB) (o : Owner) (identifier merchantName : String)
    (upiId : Option String) : Merchant × DB :=
  match findMerchantScoped db o (strKey identifier) with
  | some m => (m, db)
  | none =>
    let m : Merchant :=
      { id := db.nextId
        userConsumerId := ownerConsumerId o
        userBusinessId := ownerBusinessId o
        nameNormalized := strKey identifier
        nameVariants := merchantName :: (match upiId with | some u => [u] | none => []) }
    (m, { db with merchants := db.merchants ++ [m], nextId := db.nextId + 1 })

/-- Get-or-create of the Gmail monitor (gmail_monitor_service.py lines
385-409). -/
def resolveMerchantGmail (db : DB) (o : Owner) (merchantName : String) :
    Merchant × DB :=
  match findMerchantScoped db o (strKey merchantName) with
  | some m => (m, db)
  | none =>
    let m : Merchant :=
      { id := db.nextId
        userConsumerId := ownerConsumerId o
        userBusinessId := ownerBusinessId o
        nameNormalized := strKey merchantName
        nameVariants := [merchantName] }
    (m, { db with merchants := db.merchants ++ [m], nextId := db.nextId + 1 })

/-- Get-or-create of the manual-entry endpoints (ingestion.py lines
281-293 and 429-441): scoped lookup, creation setting only the calling
owner column of the calling side. -/
def resolveMerchantManual (db : DB) (o : Owner) (name : String) : Merchant × DB :=
  match findMerchantScoped db o (strKey name) with
  | some m => (m, db)
  | none =>
    let m : Merchant :=
      { id := db.nextId
        userConsumerId := ownerConsumerId o
        userBusinessId := ownerBusinessId o
        nameNormalized := strKey name
        nameVariants := [name] }
    (m, { db with merchants := db.merchants ++ [m], nextId := db.nextId + 1 })

/-- Get-or-create of the upload endpoint (ingestion.py lines 112-125):
the lookup is NOT filtered by owner; a created record is owner
attributed. -/
def resolveMerchantUpload (db : DB) (o : Owner) (name : String) : Merchant × DB :=
  match findMerchantAny db (strKey name) with
  | some m => (m, db)
  | none =>
    let m : Merchant :=
      { id := db.nextId
        userConsumerId := ownerConsumerId o
        userBusinessId := ownerBusinessId o
        nameNormalized := strKey name
        nameVariants := [name] }
    (m, { db with merchants := db.merchants ++ [m], nextId := db.nextId + 1 })

/-! ## SMS webhook flow (`n8n_sms_webhook`, n8n_webhooks.py lines 32-319) -/

inductive SmsRes where
  | httpError (code : Nat)
  | filtered
  | created (txnId srcId : Nat) (category : String) (confidence : Dec)
deriving DecidableEq

def SmsRes.isCreated : SmsRes → Bool
  | .created _ _ _ _ => true
  | _ => false

def n8nSmsWebhook (db : DB) (o : Owner) (consent : Bool) (rawSms : String)
    (classify : ClassifyOutcome) : DB × SmsRes :=
  if !consent then (db, .httpError 403)
  else
    let body := smsBodyOf rawSms
    let senderName := smsSenderName rawSms
    if !smsIsPayment body then (db, .filtered)
    else
      let f := smsFieldsOf body
      match f.amount with
      | .crash => (db, .httpError 500)
      | amtRes =>
        match f.balance with
        | .crash => (db, .httpError 500)
        | _ =>
          match amtRes with
          | .nomatch => (db, .httpError 400)
          | .crash => (db, .httpError 500)
          | .val a =>
            if a.ble ⟨0, 0⟩ then (db, .httpError 400)
            else
              let merchant :=
                match f.merchant with
                | some m => m
                | none => senderName.getD "Unknown Merchant"
              let identifier := (f.upiId.getD merchant)
              let merchantName := merchant.take 255
              let src : Source :=
                { id := db.nextId
                  userConsumerId := ownerConsumerId o
                  userBusinessId := ownerBusinessId o
                  sourceType := .sms
                  processed := true }
              let db1 : DB :=
                { db with sources := db.sources ++ [src], nextId := db.nextId + 1 }
              let rm := resolveMerchantSms db1 o identifier merchantName f.upiId
              let cat := coCategory classify
              let conf := coConfidence classify
              let tx : Txn :=
                { id := rm.2.nextId
                  userConsumerId := ownerConsumerId o
                  userBusinessId := ownerBusinessId o
                  userType := o.ty
                  sourceId := src.id
                  merchantId := rm.1.id
                  amount := a
                  merchantNameRaw := merchantName
                  category := cat
                  payChannel := f.channel
                  srcType := .sms
                  invoiceNo := f.reference
                  confirmed := true
                  classificationConfidence := conf
                  ocrConfidence := ⟨1, 0⟩ }
              let db2 : DB :=
                { rm.2 with txns := rm.2.txns ++ [tx], nextId := rm.2.nextId + 1 }
              (db2, .created tx.id src.id cat conf)

/-! ## Upload flow (`upload_receipt`, ingestion.py lines 33-186) -/

/-- OCR-parsed receipt fields consumed by the endpoint. -/
structure ParsedReceipt where
  amount : Option Dec
  merchantName : Option String
  currency : Option String
  invoiceNo : Option String
deriving DecidableEq

inductive UploadRes where
  | done (srcId : Nat) (txnId : Option Nat)
deriving DecidableEq

def UploadRes.txnId : UploadRes → Option Nat
  | .done _ t => t

/-- Upload endpoint: the source row always persists; classification,
merchant resolution and transaction creation run inside one `try` whose
failure is swallowed (`# Continue without transaction`). -/
def uploadReceipt (db : DB) (o : Owner) (pd : ParsedReceipt) (ocrConf : Dec)
    (classify : ClassifyOutcome) : DB × UploadRes :=
  let src : Source :=
    { id := db.nextId
      userConsumerId := ownerConsumerId o
      userBusinessId := ownerBusinessId o
      sourceType := .upload
      processed := true }
  let db1 : DB := { db with sources := db.sources ++ [src], nextId := db.nextId + 1 }
  match pd.amount with
  | none => (db1, .done src.id none)
  | some a =>
    if a.beq ⟨0, 0⟩ then (db1, .done src.id none)
    else
      match classify with
      | .fail => (db1, .done src.id none)
      | .ok cat conf =>
        let merchantName := (pd.merchantName.getD "Unknown").take 255
        let rm := resolveMerchantUpload db1 o merchantName
        let tx : Txn :=
          { id := rm.2.nextId
            userConsumerId := ownerConsumerId o
            userBusinessId := ownerBusinessId o
            userType := o.ty
            sourceId := src.id
            merchantId := rm.1.id
            amount := a
            merchantNameRaw := merchantName
            category := cat.getD "Unknown"
            payChannel := .unknown
            srcType := .upload
            invoiceNo := pd.invoiceNo
            confirmed := false
            classificationConfidence := conf.getD ⟨0, 0⟩
            ocrConfidence := ocrConf }
        let db2 : DB := { rm.2 with txns := rm.2.txns ++ [tx], nextId := rm.2.nextId + 1 }
        (db2, .done src.id (some tx.id))

/-! ## Manual-entry flows (`add_consumer_transaction` and
`add_business_transaction`, ingestion.py lines 243-545) -/

structure ManualData where
  amount : Dec
  payeeName : String
  category : Option String
  paymentMethod : String
  invoiceNo : Option String
deriving DecidableEq

inductive ManualRes where
  | httpError (code : Nat)
  | created (txnId : Nat) (category : String) (confidence : Dec)
deriving DecidableEq

def ManualRes.isCreated : ManualRes → Bool
  | .created _ _ _ => true
  | _ => false

/-- Python truthiness of the supplied category string. -/
def categoryTruthy : Option String → Bool
  | some c => c ≠ ""
  | none => false

/-- `classification_result["category"]` / `["confidence"]` under the bare
`except` of the manual endpoints: both keys must be present, otherwise
the fallback pair applies. -/
def manualClassified : ClassifyOutcome → String × Dec
  | .ok (some c) (some cf) => (c, cf)
  | _ => ("Unknown", ⟨0, 0⟩)

def consumerChannelMap (pm : String) : PayChannel :=
  if pm = "cash" then .cash
  else if pm = "card" then .card
  else if pm = "upi" then .upi
  else if pm = "wallet" then .wallet
  else .cash

def businessChannelMap (pm : String) : PayChannel :=
  if pm = "cash" then .cash
  else if pm = "card" then .card
  else if pm = "upi" then .upi
  else if pm = "cheque" then .bankTransfer
  else if pm = "netbanking" then .netbanking
  else if pm = "wallet" then .wallet
  else .cash

def addConsumerTransaction (db : DB) (o : Owner) (d : ManualData)
    (classify : ClassifyOutcome) : DB × ManualRes :=
  if o.ty ≠ .consumer then (db, .httpError 403)
  else
    let src : Source :=
      { id := db.nextId
        userConsumerId := some o.id
        userBusinessId := none
        sourceType := .manual
        processed := true }
    let db1 : DB := { db with sources := db.sources ++ [src], nextId := db.nextId + 1 }
    let rm := resolveMerchantManual db1 o d.payeeName
    let catConf :=
      if categoryTruthy d.category then (d.category.getD "", (⟨1, 0⟩ : Dec))
      else manualClassified classify
    let tx : Txn :=
      { id := rm.2.nextId
        userConsumerId := some o.id
        userBusinessId := none
        userType := .consumer
        sourceId := src.id
        merchantId := rm.1.id
        amount := d.amount
        merchantNameRaw := d.payeeName
        category := catConf.1
        payChannel := consumerChannelMap d.paymentMethod
        srcType := .manual
        invoiceNo := d.invoiceNo
        confirmed := true
        classificationConfidence := catConf.2
        ocrConfidence := ⟨1, 0⟩ }
    let db2 : DB := { rm.2 with txns := rm.2.txns ++ [tx], nextId := rm.2.nextId + 1 }
    (db2, .created tx.id catConf.1 catConf.2)

def addBusinessTransaction (db : DB) (o : Owner) (d : ManualData)
    (classify : ClassifyOutcome) : DB × ManualRes :=
  if o.ty ≠ .business then (db, .httpError 403)
  else
    let src : Source :=
      { id := db.nextId
        userConsumerId := none
        userBusinessId := some o.id
        sourceType := .manual
        processed := true }
    let db1 : DB := { db with sources := db.sources ++ [src], nextId := db.nextId + 1 }
    let rm := resolveMerchantManual db1 o d.payeeName
    let catConf :=
      if categoryTruthy d.category then (d.category.getD "", (⟨1, 0⟩ : Dec))
      else manualClassified classify
    let tx : Txn :=
      { id := rm.2.nextId
        userConsumerId := none
        userBusinessId := some o.id
        userType := .business
        sourceId := src.id
        merchantId := rm.1.id
        amount := d.amount
        merchantNameRaw := d.payeeName
        category := catConf.1
        payChannel := businessChannelMap d.paymentMethod
        srcType := .manual
        invoiceNo := d.invoiceNo
        confirmed := true
        classificationConfidence := catConf.2
        ocrConfidence := ⟨1, 0⟩ }
    let db2 : DB := { rm.2 with txns := rm.2.txns ++ [tx], nextId := rm.2.nextId + 1 }
    (db2, .created tx.id catConf.1 catConf.2)

/-! ## Gmail monitor (`GmailMonitorService`, gmail_monitor_service.py)

The poller state keeps the configured owner, the in-memory
`processed_message_ids` ledger and `last_check_time`.  The mailbox is a
list of messages; external effects (the parsed extraction result, the
classification outcome, a persistence failure, a listing API error) are
injected per message or per cycle. -/

structure MonitorCfg where
  userId : Option Nat
  userType : UserType
deriving DecidableEq

/-- `channel_map` of `_process_email_message` (lines 413-420). -/
def gmailChannelMap (pm : String) : PayChannel :=
  if pm = "UPI" then .upi
  else if pm = "CARD" then .card
  else if pm = "IMPS" then .bankTransfer
  else if pm = "NEFT" then .bankTransfer
  else if pm = "NETBANKING" then .netbanking
  else .unknown

/-- Python truthy-or default of the extracted merchant (line 364). -/
def gmailMerchantOf (td : TxData) : String :=
  match td.merchant with
  | some s => if s = "" then "Unknown" else s
  | none => "Unknown"

/-- `GmailMonitorService._process_email_message` (lines 340-501): returns
the post-call database and the success flag.  `parsed` is the result of
`_parse_email_message`; `dbFail` injects a commit-time persistence
error (which rolls the session back). -/
def processEmailMessage (cfg : MonitorCfg) (parsed : Option TxData)
    (classify : ClassifyOutcome) (dbFail : Bool) (db : DB) : DB × Bool :=
  match cfg.userId with
  | none => (db, false)
  | some uid =>
    match parsed with
    | none => (db, false)
    | some td =>
      match td.amount with
      | none => (db, false)
      | some a =>
        if a.beq ⟨0, 0⟩ then (db, false)
        else if dbFail then (db, false)
        else
          let o : Owner := ⟨uid, cfg.userType⟩
          let merchantName := (gmailMerchantOf td).take 255
          let src : Source :=
            { id := db.nextId
              userConsumerId := ownerConsumerId o
              userBusinessId := ownerBusinessId o
              sourceType := .gmail
              processed := true }
          let db1 : DB := { db with sources := db.sources ++ [src], nextId := db.nextId + 1 }
          let rm := resolveMerchantGmail db1 o merchantName
          let cat := coCategory classify
          let conf := coConfidence classify
          let tx : Txn :=
            { id := rm.2.nextId
              userConsumerId := ownerConsumerId o
              userBusinessId := ownerBusinessId o
              userType := o.ty
              sourceId := src.id
              merchantId := rm.1.id
              amount := a
              merchantNameRaw := merchantName
              category := cat
              payChannel := gmailChannelMap (td.paymentMethod.getD "UNKNOWN")
              srcType := .gmail
              invoiceNo := td.referenceNumber
              confirmed := true
              classificationConfidence := conf
              ocrConfidence := ⟨1, 0⟩ }
          let db2 : DB := { rm.2 with txns := rm.2.txns ++ [tx], nextId := rm.2.nextId + 1 }
          (db2, true)

/-- A mailbox message with its injected processing outcomes:
`queryMatch` is whether the payment-keyword search filter of the listing
query matches the message. -/
structure Msg where
  msgId : String
  date : Nat
  unread : Bool
  queryMatch : Bool
  parsed : Option TxData
  classify : ClassifyOutcome
  dbFail : Bool
deriving DecidableEq

structure MonState where
  lastCheck : Option Nat
  ledger : List String
  cfg : MonitorCfg
deriving DecidableEq

/-- First-run lookback window of the listing query (line 257): 7 days. -/
def lookbackSecs : Nat := 7 * 24 * 60 * 60

/-- `after:` bound of the Gmail query: the previous check time, or `now`
minus the lookback window on the first run. -/
def windowStart (now : Nat) (lc : Option Nat) : Nat :=
  match lc with
  | some t => t
  | none => now - lookbackSecs

/-- Mailbox listing (lines 249-270): unread messages matching the keyword
filter, dated inside the query window, at most 50 results. -/
def listMessages (mbox : List Msg) (now : Nat) (lc : Option Nat) : List Msg :=
  (mbox.filter (fun m => m.unread && m.queryMatch && windowStart now lc ≤ m.date)).take 50

def markRead (mbox : List Msg) (mid : String) : List Msg :=
  mbox.map (fun m => if m.msgId = mid then { m with unread := false } else m)

/-- Per-message step of the cycle loop (lines 281-317): skip ids already
in the ledger; on success add to the ledger and mark the message read; on
failure leave both untouched. -/
def cycleStep (cfg : MonitorCfg)
    (acc : MonState × List Msg × DB × List String) (m : Msg) :
    MonState × List Msg × DB × List String :=
  if acc.1.ledger.contains m.msgId then acc
  else
    if (processEmailMessage cfg m.parsed m.classify m.dbFail acc.2.2.1).2 then
      ({ acc.1 with ledger := acc.1.ledger ++ [m.msgId] },
       markRead acc.2.1 m.msgId,
       (processEmailMessage cfg m.parsed m.classify m.dbFail acc.2.2.1).1,
       acc.2.2.2 ++ [m.msgId])
    else
      (acc.1, acc.2.1,
       (processEmailMessage cfg m.parsed m.classify m.dbFail acc.2.2.1).1,
       acc.2.2.2 ++ [m.msgId])

structure CycleOut where
  state : MonState
  mbox : List Msg
  db : DB
  attempted : List String
deriving DecidableEq

/-- `GmailMonitorService._check_new_emails` (lines 240-338): one poll
cycle.  `listError` injects a mailbox API error raised by the listing
call; the handler returns without reaching the `last_check_time` update.
Otherwise every listed message is attempted and `last_check_time` is set
once at the end of the cycle. -/
def checkNewEmails (st : MonState) (mbox : List Msg) (now : Nat)
    (listError : Bool) (db : DB) : CycleOut :=
  if listError then ⟨st, mbox, db, []⟩
  else
    let listed := listMessages mbox now st.lastCheck
    let r := listed.foldl (cycleStep st.cfg) (st, mbox, db, [])
    ⟨{ r.1 with lastCheck := some now }, r.2.1, r.2.2.1, r.2.2.2⟩

/-! ## Shared lemmas about merchant resolution -/

theorem findMerchantScoped_ownedBy {db : DB} {o : Owner} {key : String} {m : Merchant}
    (h : findMerchantScoped db o key = some m) : m.ownedBy o = true := by
  have hp := List.find?_some h
  simp only [Bool.and_eq_true] at hp
  exact hp.2

theorem created_ownedBy (db : DB) (o : Owner) (key : String) (vs : List String) :
    Merchant.ownedBy
      ⟨db.nextId, ownerConsumerId o, ownerBusinessId o, key, vs⟩ o = true := by
  cases h : o.ty <;>
    simp [Merchant.ownedBy, ownerConsumerId, ownerBusinessId, h]

theorem resolveMerchantSms_db (db : DB) (o : Owner) (i n : String) (u : Option String) :
    (resolveMerchantSms db o i n u).2.sources = db.sources ∧
    (resolveMerchantSms db o i n u).2.txns = db.txns := by
  unfold resolveMerchantSms
  cases h : findMerchantScoped db o (strKey i) <;> simp

theorem resolveMerchantGmail_db (db : DB) (o : Owner) (n : String) :
    (resolveMerchantGmail db o n).2.sources = db.sources ∧
    (resolveMerchantGmail db o n).2.txns = db.txns := by
  unfold resolveMerchantGmail
  cases h : findMerchantScoped db o (strKey n) <;> simp

theorem resolveMerchantManual_db (db : DB) (o : Owner) (n : String) :
    (resolveMerchantManual db o n).2.sources = db.sources ∧
    (resolveMerchantManual db o n).2.txns = db.txns := by
  unfold resolveMerchantManual
  cases h : findMerchantScoped db o (strKey n) <;> simp

theorem resolveMerchantUpload_db (db : DB) (o : Owner) (n : String) :
    (resolveMerchantUpload db o n).2.sources = db.sources ∧
    (resolveMerchantUpload db o n).2.txns = db.txns := by
  unfold resolveMerchantUpload
  cases h : findMerchantAny db (strKey n) <;> simp

/-! ## Claim theorems -/

/-- C7: on the SMS body
`"Rs 500.00 debited from A/c XX1234 on 15Nov24 to VPA swiggy@paytm UPI Ref 434567890123"`
field extraction yields amount 500.00 (the decimal `50000 / 10^2`),
direction debit, payment network UPI, counterparty `"swiggy"` (with UPI
id `"swiggy@paytm"`), reference id `"434567890123"`, and masked account
`"1234"`. -/
theorem C7_sms_scenario_extraction :
    smsFieldsOf
        "Rs 500.00 debited from A/c XX1234 on 15Nov24 to VPA swiggy@paytm UPI Ref 434567890123" =
      { amount := .val ⟨50000, 2⟩
        txnType := "debit"
        upiId := some "swiggy@paytm"
        merchant := some "swiggy"
        reference := some "434567890123"
        account := some "1234"
        balance := .nomatch
        channel := .upi } ∧
    Dec.beq ⟨50000, 2⟩ (Dec.ofNat 500) = true := by
  decide

/-- C8: an SMS body matched by none of the fixed payment-keyword patterns
(that is, `smsIsPayment` is false) is rejected as non-payment: the
webhook returns the filtered response and the database is unchanged — no
Source, Merchant or Transaction row is created. -/
theorem C8_non_payment_no_records (db : DB) (o : Owner) (raw : String)
    (c : ClassifyOutcome) (h : smsIsPayment (smsBodyOf raw) = false) :
    n8nSmsWebhook db o true raw c = (db, .filtered) := by
  unfold n8nSmsWebhook
  simp [h]

theorem C8_non_payment_no_records_witness :
    smsIsPayment (smsBodyOf "hello there") = false ∧
    n8nSmsWebhook emptyDB ⟨1, .consumer⟩ true "hello there" .fail = (emptyDB, .filtered) :=
  ⟨by decide, C8_non_payment_no_records emptyDB ⟨1, .consumer⟩ "hello there" .fail (by decide)⟩

/-- C6 (amended): on a mailbox API error raised mid-cycle the cycle
aborts early WITHOUT updating `last_check_time` (the update at the end of
the `try` block is skipped, so the whole monitor state, mailbox and
database are unchanged); a cycle whose listing succeeds updates
`last_check_time` exactly once, to the cycle time, regardless of
per-message outcomes. -/
theorem C6_lastcheck_amended :
    (∀ st mbox now db, checkNewEmails st mbox now true db = ⟨st, mbox, db, []⟩) ∧
    (∀ st mbox now db, (checkNewEmails st mbox now false db).state.lastCheck = some now) := by
  constructor
  · intro st mbox now db
    rfl
  · intro st mbox now db
    rfl

/-- C6 counterexample: with `last_check_time = some 5`, a cycle at time 9
that hits a mailbox API listing error leaves `last_check_time` at 5 — the
claim that `lastCheckTime` is still updated for that cycle is false. -/
theorem C6_counterexample :
    ¬ (checkNewEmails ⟨some 5, [], ⟨some 1, .consumer⟩⟩ [] 9 true emptyDB).state.lastCheck
        = some 9 := by
  decide

set_option maxRecDepth 100000 in
/-- C4: a message whose processing fails is indeed left unread and absent
from the ledger, but it is NOT attempted again by the next cycle: the
first cycle (time 700000, first-run 7-day window) attempts `m1` (dated
690000), fails, leaves it unread and unledgered, and sets
`last_check_time := 700000`; the next cycle queries only messages dated
from 700000 on, so its attempted list is empty — the message is never
retried, contradicting the claim (and the log line of the source itself,
which says it will retry on the next check). -/
theorem C4_failed_message_never_retried :
    (checkNewEmails ⟨none, [], ⟨some 1, .consumer⟩⟩
        [⟨"m1", 690000, true, true, none, .fail, false⟩] 700000 false emptyDB).attempted
      = ["m1"] ∧
    (checkNewEmails ⟨none, [], ⟨some 1, .consumer⟩⟩
        [⟨"m1", 690000, true, true, none, .fail, false⟩] 700000 false emptyDB).state.ledger
      = [] ∧
    (checkNewEmails ⟨none, [], ⟨some 1, .consumer⟩⟩
        [⟨"m1", 690000, true, true, none, .fail, false⟩] 700000 false emptyDB).mbox
      = [⟨"m1", 690000, true, true, none, .fail, false⟩] ∧
    (checkNewEmails ⟨none, [], ⟨some 1, .consumer⟩⟩
        [⟨"m1", 690000, true, true, none, .fail, false⟩] 700000 false emptyDB).state
      = ⟨some 700000, [], ⟨some 1, .consumer⟩⟩ ∧
    (checkNewEmails ⟨some 700000, [], ⟨some 1, .consumer⟩⟩
        [⟨"m1", 690000, true, true, none, .fail, false⟩] 700100 false emptyDB).attempted
      = [] := by
  decide

/-- C2 (amended): merchant resolution is owner-scoped on the SMS, Gmail
poll and manual-entry channels — the resolver only matches or creates a
record owned by the requesting account; on the upload channel only the
CREATED record is owner attributed, while the lookup is not owner
filtered (see the counterexample). -/
theorem C2_owner_scoping_amended :
    (∀ db o idf nm upi, ((resolveMerchantSms db o idf nm upi).1).ownedBy o = true) ∧
    (∀ db o nm, ((resolveMerchantGmail db o nm).1).ownedBy o = true) ∧
    (∀ db o nm, ((resolveMerchantManual db o nm).1).ownedBy o = true) ∧
    (∀ db o nm, findMerchantAny db (strKey nm) = none →
      ((resolveMerchantUpload db o nm).1).ownedBy o = true) := by
  refine ⟨?_, ?_, ?_, ?_⟩
  · intro db o idf nm upi
    unfold resolveMerchantSms
    cases h : findMerchantScoped db o (strKey idf) with
    | some m => simpa using findMerchantScoped_ownedBy h
    | none => simpa using created_ownedBy db o (strKey idf) _
  · intro db o nm
    unfold resolveMerchantGmail
    cases h : findMerchantScoped db o (strKey nm) with
    | some m => simpa using findMerchantScoped_ownedBy h
    | none => simpa using created_ownedBy db o (strKey nm) _
  · intro db o nm
    unfold resolveMerchantManual
    cases h : findMerchantScoped db o (strKey nm) with
    | some m => simpa using findMerchantScoped_ownedBy h
    | none => simpa using created_ownedBy db o (strKey nm) _
  · intro db o nm h
    unfold resolveMerchantUpload
    rw [h]
    simpa using created_ownedBy db o (strKey nm) _

theorem C2_owner_scoping_amended_witness :
    ((resolveMerchantSms emptyDB ⟨1, .consumer⟩ "Zomato" "Zomato" none).1).ownedBy
        ⟨1, .consumer⟩ = true ∧
    findMerchantAny emptyDB (strKey "Shop") = none ∧
    ((resolveMerchantUpload emptyDB ⟨2, .business⟩ "Shop").1).ownedBy ⟨2, .business⟩ = true :=
  ⟨(C2_owner_scoping_amended.1 emptyDB ⟨1, .consumer⟩ "Zomato" "Zomato" none),
   by decide,
   C2_owner_scoping_amended.2.2.2 emptyDB ⟨2, .business⟩ "Shop" (by decide)⟩

/-- C2 counterexample: the upload endpoint reuses a merchant owned by a
DIFFERENT account.  With one merchant (id 7) owned by consumer 2 and a
matching name, an upload by consumer 1 creates a transaction whose
`merchant_id` is 7, a record not owned by the requester — refuting
"a MerchantRecord owned by a different account is never reused". -/
theorem C2_counterexample :
    ((uploadReceipt ⟨[], [⟨7, some 2, none, "zomato", ["Zomato"]⟩], [], 8⟩ ⟨1, .consumer⟩
        ⟨some ⟨50, 0⟩, some "Zomato", none, none⟩ ⟨1, 0⟩
        (.ok (some "Food") (some ⟨1, 0⟩))).1.txns.map Txn.merchantId) = [7] ∧
    Merchant.ownedBy ⟨7, some 2, none, "zomato", ["Zomato"]⟩ ⟨1, .consumer⟩ = false := by
  decide

/-- C10: when the monitor has no configured user id,
`_process_email_message` creates nothing and reports failure; and every
Source and Transaction row it does create is attributed to the configured
`current_user_id` / `current_user_type` owner pair (the other owner
column left empty). -/
theorem C10_monitor_owner_attribution :
    (∀ cfg p c f db, cfg.userId = none → processEmailMessage cfg p c f db = (db, false)) ∧
    (∀ cfg p c f db uid, cfg.userId = some uid →
      (∀ s, s ∈ (processEmailMessage cfg p c f db).1.sources → s ∈ db.sources ∨
        (s.userConsumerId = ownerConsumerId ⟨uid, cfg.userType⟩ ∧
         s.userBusinessId = ownerBusinessId ⟨uid, cfg.userType⟩)) ∧
      (∀ t, t ∈ (processEmailMessage cfg p c f db).1.txns → t ∈ db.txns ∨
        (t.userConsumerId = ownerConsumerId ⟨uid, cfg.userType⟩ ∧
         t.userBusinessId = ownerBusinessId ⟨uid, cfg.userType⟩))) := by
  constructor
  · intro cfg p c f db h
    unfold processEmailMessage
    rw [h]
  · intro cfg p c f db uid h
    unfold processEmailMessage
    rw [h]
    rcases p with _ | td
    · exact ⟨fun s hs => Or.inl hs, fun t ht => Or.inl ht⟩
    · rcases ha : td.amount with _ | a
      · simp only [ha]
        exact ⟨fun s hs => Or.inl hs, fun t ht => Or.inl ht⟩
      · simp only [ha]
        by_cases hz : a.beq ⟨0, 0⟩ = true
        · simp only [if_pos hz]
          exact ⟨fun s hs => Or.inl hs, fun t ht => Or.inl ht⟩
        · by_cases hf2 : f = true
          · simp only [if_neg hz, if_pos hf2]
            exact ⟨fun s hs => Or.inl hs, fun t ht => Or.inl ht⟩
          · simp only [if_neg hz, if_neg hf2]
            constructor
            · intro s hs
              simp only [resolveMerchantGmail_db, List.mem_append, List.mem_singleton] at hs
              rcases hs with h1 | h1
              · exact Or.inl h1
              · subst h1
                exact Or.inr ⟨rfl, rfl⟩
            · intro t ht
              simp only [resolveMerchantGmail_db, List.mem_append, List.mem_singleton] at ht
              rcases ht with h1 | h1
              · exact Or.inl h1
              · subst h1
                exact Or.inr ⟨rfl, rfl⟩

theorem C10_monitor_owner_attribution_witness :
    processEmailMessage ⟨none, .consumer⟩
        (some ⟨some ⟨100, 0⟩, some "Amazon", none, none, none, none⟩) .fail false emptyDB
      = (emptyDB, false) ∧
    (∀ s, s ∈ (processEmailMessage ⟨some 1, .consumer⟩
        (some ⟨some ⟨100, 0⟩, some "Amazon", none, none, none, none⟩) .fail false
        emptyDB).1.sources → s ∈ emptyDB.sources ∨
      (s.userConsumerId = ownerConsumerId ⟨1, .consumer⟩ ∧
       s.userBusinessId = ownerBusinessId ⟨1, .consumer⟩)) :=
  ⟨C10_monitor_owner_attribution.1 ⟨none, .consumer⟩ _ .fail false emptyDB rfl,
   (C10_monitor_owner_attribution.2 ⟨some 1, .consumer⟩ _ .fail false emptyDB 1 rfl).1⟩

/-- C9: on the email channel, with the keyword pre-check passed, the AI
path yields a candidate exactly when the verdict has
`is_transaction = true`, a positive amount, and confidence at least 0.6;
a collaborator error or a malformed response instead falls back to the
regex extractor applied to the full email text. -/
theorem C9_email_ai_acceptance_gate (s b snd : String) (v : Verdict)
    (hkw : hasEmailKeyword (s ++ "\n" ++ b) = true) :
    ((extractTransactionData s b snd (.ok v)).isSome ↔
      v.isTransaction = true ∧
      (∃ a, v.amount = some a ∧ a.ble ⟨0, 0⟩ = false) ∧
      (v.confidence.getD ⟨0, 0⟩).blt ⟨6, 1⟩ = false) ∧
    extractTransactionData s b snd .malformed =
      fallbackRegexExtraction (s ++ "\n" ++ b) snd ∧
    extractTransactionData s b snd .collaboratorError =
      fallbackRegexExtraction (s ++ "\n" ++ b) snd := by
  unfold extractTransactionData
  simp only [hkw, Bool.not_true, Bool.false_eq_true, if_false]
  refine ⟨?_, trivial, trivial⟩
  cases hit : v.isTransaction
  · simp [hit]
  · cases hamt : v.amount with
    | none => simp [hamt]
    | some a =>
      by_cases hb : a.ble ⟨0, 0⟩ = true
      · simp [hamt, hb]
      · by_cases hc : (v.confidence.getD ⟨0, 0⟩).blt ⟨6, 1⟩ = true
        · simp [hamt, hb, hc]
        · simp [hamt, hb, hc]

theorem C9_email_ai_acceptance_gate_witness :
    hasEmailKeyword ("Payment successful" ++ "\n" ++ "Rs 1299 paid via UPI") = true ∧
    extractTransactionData "Payment successful" "Rs 1299 paid via UPI" "amazon" .malformed =
      fallbackRegexExtraction ("Payment successful" ++ "\n" ++ "Rs 1299 paid via UPI")
        "amazon" :=
  ⟨by decide,
   (C9_email_ai_acceptance_gate "Payment successful" "Rs 1299 paid via UPI" "amazon"
      ⟨true, some ⟨1299, 0⟩, some "Amazon India", none, none, none, some ⟨9, 1⟩⟩
      (by decide)).2.1⟩

/-- Fold invariant of the cycle loop: a ledger member after the loop was
either already there, or belongs to a processed message whose
processing call returned success. -/
theorem cycle_ledger_mem (cfg : MonitorCfg) :
    ∀ (ms : List Msg) (acc : MonState × List Msg × DB × List String) (mid : String),
      mid ∈ (ms.foldl (cycleStep cfg) acc).1.ledger →
      mid ∈ acc.1.ledger ∨
        ∃ m, m ∈ ms ∧ m.msgId = mid ∧
          ∃ dbx, (processEmailMessage cfg m.parsed m.classify m.dbFail dbx).2 = true := by
  intro ms
  induction ms with
  | nil => exact fun acc mid h => Or.inl h
  | cons m ms ih =>
    intro acc mid h
    rcases ih (cycleStep cfg acc m) mid h with h1 | ⟨m2, hm2, hid, hdb⟩
    · unfold cycleStep at h1
      by_cases hcont : acc.1.ledger.contains m.msgId
      · rw [if_pos hcont] at h1
        exact Or.inl h1
      · rw [if_neg hcont] at h1
        by_cases hp : (processEmailMessage cfg m.parsed m.classify m.dbFail acc.2.2.1).2 = true
        · rw [if_pos hp] at h1
          simp only [List.mem_append, List.mem_singleton] at h1
          rcases h1 with h1 | h1
          · exact Or.inl h1
          · exact Or.inr ⟨m, List.mem_cons_self m ms, h1.symm, acc.2.2.1, hp⟩
        · rw [if_neg hp] at h1
          exact Or.inl h1
    · exact Or.inr ⟨m2, List.mem_cons_of_mem m hm2, hid, hdb⟩

/-- C3: a message id is in the post-cycle ledger only if it was already
there or its processing call reported success; and the success flag of
`_process_email_message` is returned only on the path where the commit
ran (no injected persistence failure, and both rows appended), while a
failing call leaves the database untouched. -/
theorem C3_ledger_only_after_commit :
    (∀ st mbox now db mid,
      mid ∈ (checkNewEmails st mbox now false db).state.ledger →
      mid ∈ st.ledger ∨
        ∃ m, m ∈ listMessages mbox now st.lastCheck ∧ m.msgId = mid ∧
          ∃ dbx, (processEmailMessage st.cfg m.parsed m.classify m.dbFail dbx).2 = true) ∧
    (∀ cfg p c f db, (processEmailMessage cfg p c f db).2 = true →
      f = false ∧
      (processEmailMessage cfg p c f db).1.sources.length = db.sources.length + 1 ∧
      (processEmailMessage cfg p c f db).1.txns.length = db.txns.length + 1) ∧
    (∀ cfg p c f db, (processEmailMessage cfg p c f db).2 = false →
      (processEmailMessage cfg p c f db).1 = db) := by
  refine ⟨?_, ?_, ?_⟩
  · intro st mbox now db mid h
    unfold checkNewEmails at h
    simp only [Bool.false_eq_true, if_false] at h
    exact cycle_ledger_mem st.cfg (listMessages mbox now st.lastCheck) (st, mbox, db, []) mid h
  · intro cfg p c f db h
    unfold processEmailMessage at h ⊢
    rcases hu : cfg.userId with _ | uid <;> simp only [hu] at h ⊢
    · simp at h
    · rcases p with _ | td
      · simp at h
      · rcases ha : td.amount with _ | a <;> simp only [ha] at h ⊢
        · simp at h
        · by_cases hz : a.beq ⟨0, 0⟩ = true
          · rw [if_pos hz] at h
            simp at h
          · rw [if_neg hz] at h ⊢
            by_cases hf2 : f = true
            · rw [if_pos hf2] at h
              simp at h
            · rw [if_neg hf2] at h ⊢
              refine ⟨by simpa using hf2, ?_, ?_⟩ <;>
                simp [resolveMerchantGmail_db]
  · intro cfg p c f db h
    unfold processEmailMessage at h ⊢
    rcases hu : cfg.userId with _ | uid
    · simp [hu]
    · simp only [hu] at h ⊢
      rcases p with _ | td
      · rfl
      · rcases ha : td.amount with _ | a
        · simp [ha]
        · simp only [ha] at h ⊢
          by_cases hz : a.beq ⟨0, 0⟩ = true
          · rw [if_pos hz]
          · rw [if_neg hz] at h ⊢
            by_cases hf2 : f = true
            · rw [if_pos hf2]
            · rw [if_neg hf2] at h
              simp at h

theorem C3_ledger_only_after_commit_witness :
    "m1" ∈ (⟨none, [], ⟨some 1, .consumer⟩⟩ : MonState).ledger ∨
      ∃ m, m ∈ listMessages
            [⟨"m1", 690000, true, true,
              some ⟨some ⟨100, 0⟩, some "Amazon", some "debit", some "UPI", none, some ⟨9, 1⟩⟩,
              .ok (some "Shopping") (some ⟨8, 1⟩), false⟩] 700000
            (⟨none, [], ⟨some 1, .consumer⟩⟩ : MonState).lastCheck ∧
        m.msgId = "m1" ∧
        ∃ dbx, (processEmailMessage (⟨none, [], ⟨some 1, .consumer⟩⟩ : MonState).cfg
            m.parsed m.classify m.dbFail dbx).2 = true :=
  C3_ledger_only_after_commit.1 ⟨none, [], ⟨some 1, .consumer⟩⟩
    [⟨"m1", 690000, true, true,
      some ⟨some ⟨100, 0⟩, some "Amazon", some "debit", some "UPI", none, some ⟨9, 1⟩⟩,
      .ok (some "Shopping") (some ⟨8, 1⟩), false⟩] 700000 emptyDB "m1" (by decide)

/-- C5 (amended): the `SourceRecord`/`TransactionRecord` atomic unit holds
with a channel split.  On the SMS channel an error response leaves the
database untouched (the pending source is rolled back, it does NOT
persist), while a created response appends exactly one source and one
transaction referencing it.  On the upload channel the source always
persists — with no transaction when none was created, and with exactly
one paired transaction otherwise.  On the email channel a failed call
leaves the database untouched and a successful call appends one source
and one transaction referencing it.  In all cases no dangling
`TransactionRecord` is visible. -/
theorem C5_atomicity_amended :
    (∀ db o consent raw c dbr code,
      n8nSmsWebhook db o consent raw c = (dbr, .httpError code) → dbr = db) ∧
    (∀ db o consent raw c tid sid cat conf,
      (n8nSmsWebhook db o consent raw c).2 = .created tid sid cat conf →
      sid = db.nextId ∧
      (n8nSmsWebhook db o consent raw c).1.sources.map Source.id =
        db.sources.map Source.id ++ [sid] ∧
      (n8nSmsWebhook db o consent raw c).1.txns.map (fun t => (t.id, t.sourceId)) =
        db.txns.map (fun t => (t.id, t.sourceId)) ++ [(tid, sid)]) ∧
    (∀ db o pd ocr c,
      (uploadReceipt db o pd ocr c).1.sources.map Source.id =
        db.sources.map Source.id ++ [db.nextId] ∧
      ((uploadReceipt db o pd ocr c).2.txnId = none →
        (uploadReceipt db o pd ocr c).1.txns = db.txns) ∧
      (∀ tid, (uploadReceipt db o pd ocr c).2.txnId = some tid →
        (uploadReceipt db o pd ocr c).1.txns.map (fun t => (t.id, t.sourceId)) =
          db.txns.map (fun t => (t.id, t.sourceId)) ++ [(tid, db.nextId)])) ∧
    (∀ cfg p c f db,
      ((processEmailMessage cfg p c f db).2 = false →
        (processEmailMessage cfg p c f db).1 = db) ∧
      ((processEmailMessage cfg p c f db).2 = true →
        (processEmailMessage cfg p c f db).1.sources.map Source.id =
          db.sources.map Source.id ++ [db.nextId] ∧
        (processEmailMessage cfg p c f db).1.txns.map Txn.sourceId =
          db.txns.map Txn.sourceId ++ [db.nextId])) := by
  refine ⟨?_, ?_, ?_, ?_⟩
  · intro db o consent raw c dbr code h
    unfold n8nSmsWebhook at h
    cases consent
    · simp only [Bool.not_false, if_true, Prod.mk.injEq] at h
      exact h.1.symm
    · simp only [Bool.not_true, Bool.false_eq_true, if_false] at h
      cases hp : smsIsPayment (smsBodyOf raw)
      · simp only [hp, Bool.not_false, if_true, Prod.mk.injEq] at h
        simp at h
      · simp only [hp, Bool.not_true, Bool.false_eq_true, if_false] at h
        rcases hamt : (smsFieldsOf (smsBodyOf raw)).amount with _ | _ | a <;>
          simp only [hamt] at h
        · rcases hbal : (smsFieldsOf (smsBodyOf raw)).balance with _ | _ | b <;>
            simp only [hbal, Prod.mk.injEq] at h <;> exact h.1.symm
        · exact (Prod.mk.injEq .. ▸ h).1.symm
        · rcases hbal : (smsFieldsOf (smsBodyOf raw)).balance with _ | _ | b <;>
            simp only [hbal, Prod.mk.injEq] at h
          · by_cases hb : a.ble ⟨0, 0⟩ = true
            · rw [if_pos hb] at h
              exact (Prod.mk.injEq .. ▸ h).1.symm
            · rw [if_neg hb] at h
              simp only [Prod.mk.injEq] at h
              exact absurd h.2 (by simp)
          · exact h.1.symm
          · by_cases hb : a.ble ⟨0, 0⟩ = true
            · rw [if_pos hb] at h
              exact (Prod.mk.injEq .. ▸ h).1.symm
            · rw [if_neg hb] at h
              simp only [Prod.mk.injEq] at h
              exact absurd h.2 (by simp)
  · intro db o consent raw c tid sid cat conf h
    unfold n8nSmsWebhook at h ⊢
    cases consent
    · simp at h
    · simp only [Bool.not_true, Bool.false_eq_true, if_false] at h ⊢
      cases hp : smsIsPayment (smsBodyOf raw)
      · simp only [hp, Bool.not_false, if_true] at h
        simp at h
      · simp only [hp, Bool.not_true, Bool.false_eq_true, if_false] at h ⊢
        rcases hamt : (smsFieldsOf (smsBodyOf raw)).amount with _ | _ | a <;>
          simp only [hamt] at h ⊢
        · rcases hbal : (smsFieldsOf (smsBodyOf raw)).balance with _ | _ | b <;>
            simp only [hbal] at h <;> simp at h
        · simp at h
        · rcases hbal : (smsFieldsOf (smsBodyOf raw)).balance with _ | _ | b <;>
            simp only [hbal] at h ⊢
          · by_cases hb : a.ble ⟨0, 0⟩ = true
            · rw [if_pos hb] at h
              simp at h
            · rw [if_neg hb] at h ⊢
              simp only [SmsRes.created.injEq] at h
              obtain ⟨h1, h2, h3, h4⟩ := h
              refine ⟨h2.symm, ?_, ?_⟩ <;>
                simp [resolveMerchantSms_db, ← h1, ← h2]
          · simp at h
          · by_cases hb : a.ble ⟨0, 0⟩ = true
            · rw [if_pos hb] at h
              simp at h
            · rw [if_neg hb] at h ⊢
              simp only [SmsRes.created.injEq] at h
              obtain ⟨h1, h2, h3, h4⟩ := h
              refine ⟨h2.symm, ?_, ?_⟩ <;>
                simp [resolveMerchantSms_db, ← h1, ← h2]
  · intro db o pd ocr c
    unfold uploadReceipt
    rcases hamt : pd.amount with _ | a
    · simp only [hamt]
      refine ⟨by simp, fun _ => by simp, fun tid ht => ?_⟩
      simp [UploadRes.txnId] at ht
    · simp only [hamt]
      by_cases hz : a.beq ⟨0, 0⟩ = true
      · rw [if_pos hz]
        refine ⟨by simp, fun _ => by simp, fun tid ht => ?_⟩
        simp [UploadRes.txnId] at ht
      · rw [if_neg hz]
        rcases c with ⟨cat, conf⟩ | _
        · refine ⟨by simp [resolveMerchantUpload_db], fun hnone => ?_, fun tid ht => ?_⟩
          · simp [UploadRes.txnId] at hnone
          · simp only [UploadRes.txnId, Option.some.injEq] at ht
            subst ht
            simp [resolveMerchantUpload_db]
        · refine ⟨by simp, fun _ => by simp, fun tid ht => ?_⟩
          simp [UploadRes.txnId] at ht
  · intro cfg p c f db
    constructor
    · intro h
      unfold processEmailMessage at h ⊢
      rcases hu : cfg.userId with _ | uid
      · simp [hu]
      · simp only [hu] at h ⊢
        rcases p with _ | td
        · rfl
        · rcases ha : td.amount with _ | a
          · simp [ha]
          · simp only [ha] at h ⊢
            by_cases hz : a.beq ⟨0, 0⟩ = true
            · rw [if_pos hz]
            · rw [if_neg hz] at h ⊢
              by_cases hf2 : f = true
              · rw [if_pos hf2]
              · rw [if_neg hf2] at h
                simp at h
    · intro h
      unfold processEmailMessage at h ⊢
      rcases hu : cfg.userId with _ | uid
      · rw [hu] at h
        simp at h
      · simp only [hu] at h ⊢
        rcases p with _ | td
        · simp at h
        · rcases ha : td.amount with _ | a
          · simp only [ha] at h
            simp at h
          · simp only [ha] at h ⊢
            by_cases hz : a.beq ⟨0, 0⟩ = true
            · rw [if_pos hz] at h
              simp at h
            · rw [if_neg hz] at h ⊢
              by_cases hf2 : f = true
              · rw [if_pos hf2] at h
                simp at h
              · rw [if_neg hf2]
                constructor <;> simp [resolveMerchantGmail_db]

theorem C5_atomicity_amended_witness :
    0 = emptyDB.nextId ∧
    (n8nSmsWebhook emptyDB ⟨1, .consumer⟩ true
        "Rs 500.00 debited from A/c XX1234 to VPA swiggy@paytm UPI Ref 434567890123"
        .fail).1.sources.map Source.id = emptyDB.sources.map Source.id ++ [0] ∧
    (n8nSmsWebhook emptyDB ⟨1, .consumer⟩ true
        "Rs 500.00 debited from A/c XX1234 to VPA swiggy@paytm UPI Ref 434567890123"
        .fail).1.txns.map (fun t => (t.id, t.sourceId)) =
      emptyDB.txns.map (fun t => (t.id, t.sourceId)) ++ [(2, 0)] :=
  C5_atomicity_amended.2.1 emptyDB ⟨1, .consumer⟩ true
    "Rs 500.00 debited from A/c XX1234 to VPA swiggy@paytm UPI Ref 434567890123"
    .fail 2 0 "Unknown" ⟨0, 0⟩ (by decide)

/-- C5 counterexample: on the SMS channel with a payment-classified body
that yields no amount (`"payment due tomorrow"`), the request fails with
a 400 and NOTHING persists — in particular the `SourceRecord` does not
persist, contradicting the claim that the `SourceRecord` still persists
when the `TransactionRecord` cannot be completed. -/
theorem C5_counterexample :
    smsIsPayment "payment due tomorrow" = true ∧
    n8nSmsWebhook emptyDB ⟨1, .consumer⟩ true "payment due tomorrow" .fail =
      (emptyDB, .httpError 400) ∧
    emptyDB.sources = [] := by
  decide

/-- C1 (amended): on the SMS, Gmail-poll and manual-entry channels a
classification-collaborator failure never affects whether a transaction
is created, and the transaction it yields carries category `"Unknown"`
with confidence 0.0.  On the upload channel this fails: a classification
failure aborts the whole transaction-creation block (see the
counterexample), so only those three channels keep the guarantee. -/
theorem C1_classification_fallback_amended :
    (∀ db o raw c, (n8nSmsWebhook db o true raw .fail).2.isCreated =
      (n8nSmsWebhook db o true raw c).2.isCreated) ∧
    (∀ db o raw tid sid cat conf,
      (n8nSmsWebhook db o true raw .fail).2 = .created tid sid cat conf →
      cat = "Unknown" ∧ conf = ⟨0, 0⟩) ∧
    (∀ cfg p f db c, (processEmailMessage cfg p .fail f db).2 =
      (processEmailMessage cfg p c f db).2) ∧
    (∀ cfg p f db t, t ∈ (processEmailMessage cfg p .fail f db).1.txns →
      t ∈ db.txns ∨ (t.category = "Unknown" ∧ t.classificationConfidence = ⟨0, 0⟩)) ∧
    (∀ db o d c, (addConsumerTransaction db o d .fail).2.isCreated =
      (addConsumerTransaction db o d c).2.isCreated) ∧
    (∀ db o d tid cat conf, categoryTruthy d.category = false →
      (addConsumerTransaction db o d .fail).2 = .created tid cat conf →
      cat = "Unknown" ∧ conf = ⟨0, 0⟩) ∧
    (∀ db o d c, (addBusinessTransaction db o d .fail).2.isCreated =
      (addBusinessTransaction db o d c).2.isCreated) ∧
    (∀ db o d tid cat conf, categoryTruthy d.category = false →
      (addBusinessTransaction db o d .fail).2 = .created tid cat conf →
      cat = "Unknown" ∧ conf = ⟨0, 0⟩) := by
  refine ⟨?_, ?_, ?_, ?_, ?_, ?_, ?_, ?_⟩
  · intro db o raw c
    unfold n8nSmsWebhook
    simp only [Bool.not_true, Bool.false_eq_true, if_false]
    cases hp : smsIsPayment (smsBodyOf raw)
    · simp [hp]
    · simp only [hp, Bool.not_true, Bool.false_eq_true, if_false]
      rcases hamt : (smsFieldsOf (smsBodyOf raw)).amount with _ | _ | a
      · simp only [hamt]
      · simp only [hamt]
      · simp only [hamt]
        rcases hbal : (smsFieldsOf (smsBodyOf raw)).balance with _ | _ | b
        · simp only [hbal]
          by_cases hb : a.ble ⟨0, 0⟩ = true
          · rw [if_pos hb, if_pos hb]
          · rw [if_neg hb, if_neg hb]
            rfl
        · simp only [hbal]
        · simp only [hbal]
          by_cases hb : a.ble ⟨0, 0⟩ = true
          · rw [if_pos hb, if_pos hb]
          · rw [if_neg hb, if_neg hb]
            rfl
  · intro db o raw tid sid cat conf h
    unfold n8nSmsWebhook at h
    simp only [Bool.not_true, Bool.false_eq_true, if_false] at h
    cases hp : smsIsPayment (smsBodyOf raw)
    · simp only [hp, Bool.not_false, if_true] at h
      simp at h
    · simp only [hp, Bool.not_true, Bool.false_eq_true, if_false] at h
      rcases hamt : (smsFieldsOf (smsBodyOf raw)).amount with _ | _ | a <;>
        simp only [hamt] at h
      · rcases hbal : (smsFieldsOf (smsBodyOf raw)).balance with _ | _ | b <;>
          simp only [hbal] at h <;> simp at h
      · simp at h
      · rcases hbal : (smsFieldsOf (smsBodyOf raw)).balance with _ | _ | b <;>
          simp only [hbal] at h
        · by_cases hb : a.ble ⟨0, 0⟩ = true
          · rw [if_pos hb] at h
            simp at h
          · rw [if_neg hb] at h
            simp only [SmsRes.created.injEq, coCategory, coConfidence] at h
            exact ⟨h.2.2.1.symm, h.2.2.2.symm⟩
        · simp at h
        · by_cases hb : a.ble ⟨0, 0⟩ = true
          · rw [if_pos hb] at h
            simp at h
          · rw [if_neg hb] at h
            simp only [SmsRes.created.injEq, coCategory, coConfidence] at h
            exact ⟨h.2.2.1.symm, h.2.2.2.symm⟩
  · intro cfg p f db c
    unfold processEmailMessage
    rcases hu : cfg.userId with _ | uid
    · rfl
    · rcases p with _ | td
      · rfl
      · rcases ha : td.amount with _ | a
        · simp [ha]
        · simp only [ha]
          by_cases hz : a.beq ⟨0, 0⟩ = true
          · rw [if_pos hz, if_pos hz]
          · rw [if_neg hz, if_neg hz]
            by_cases hf2 : f = true
            · rw [if_pos hf2, if_pos hf2]
            · rw [if_neg hf2, if_neg hf2]
  · intro cfg p f db t ht
    unfold processEmailMessage at ht
    rcases hu : cfg.userId with _ | uid
    · rw [hu] at ht
      exact Or.inl ht
    · simp only [hu] at ht
      rcases p with _ | td
      · exact Or.inl ht
      · rcases ha : td.amount with _ | a
        · simp only [ha] at ht
          exact Or.inl ht
        · simp only [ha] at ht
          by_cases hz : a.beq ⟨0, 0⟩ = true
          · rw [if_pos hz] at ht
            exact Or.inl ht
          · rw [if_neg hz] at ht
            by_cases hf2 : f = true
            · rw [if_pos hf2] at ht
              exact Or.inl ht
            · rw [if_neg hf2] at ht
              simp only [resolveMerchantGmail_db, List.mem_append,
                List.mem_singleton] at ht
              rcases ht with h1 | h1
              · exact Or.inl h1
              · subst h1
                exact Or.inr ⟨rfl, rfl⟩
  · intro db o d c
    obtain ⟨oid, oty⟩ := o
    cases oty <;> rfl
  · intro db o d tid cat conf hcat h
    unfold addConsumerTransaction at h
    obtain ⟨oid, oty⟩ := o
    cases oty
    · rw [if_neg (fun hne => hne rfl)] at h
      simp only [hcat, Bool.false_eq_true, if_false, ManualRes.created.injEq,
        manualClassified] at h
      exact ⟨h.2.1.symm, h.2.2.symm⟩
    · simp at h
  · intro db o d c
    obtain ⟨oid, oty⟩ := o
    cases oty <;> rfl
  · intro db o d tid cat conf hcat h
    unfold addBusinessTransaction at h
    obtain ⟨oid, oty⟩ := o
    cases oty
    · simp at h
    · rw [if_neg (fun hne => hne rfl)] at h
      simp only [hcat, Bool.false_eq_true, if_false, ManualRes.created.injEq,
        manualClassified] at h
      exact ⟨h.2.1.symm, h.2.2.symm⟩

theorem C1_classification_fallback_amended_witness :
    (n8nSmsWebhook emptyDB ⟨1, .consumer⟩ true
        "Rs 500.00 debited from A/c XX1234 to VPA swiggy@paytm UPI Ref 434567890123"
        .fail).2 = .created 2 0 "Unknown" ⟨0, 0⟩ ∧
    ("Unknown" = "Unknown" ∧ (⟨0, 0⟩ : Dec) = ⟨0, 0⟩) :=
  ⟨by decide,
   C1_classification_fallback_amended.2.1 emptyDB ⟨1, .consumer⟩
     "Rs 500.00 debited from A/c XX1234 to VPA swiggy@paytm UPI Ref 434567890123"
     2 0 "Unknown" ⟨0, 0⟩ (by decide)⟩

/-- C1 counterexample: on the upload channel, with OCR data carrying a
valid amount, a classification-collaborator failure aborts transaction
creation entirely: the source row persists but NO `TransactionRecord` is
created at all (so in particular none with category `"Unknown"` and
confidence 0.0), refuting the claim for the upload channel. -/
theorem C1_counterexample :
    (uploadReceipt emptyDB ⟨1, .consumer⟩ ⟨some ⟨100, 0⟩, some "Shop", none, none⟩
        ⟨9, 1⟩ .fail).1.txns = [] ∧
    (uploadReceipt emptyDB ⟨1, .consumer⟩ ⟨some ⟨100, 0⟩, some "Shop", none, none⟩
        ⟨9, 1⟩ .fail).1.sources.length = 1 ∧
    (uploadReceipt emptyDB ⟨1, .consumer⟩ ⟨some ⟨100, 0⟩, some "Shop", none, none⟩
        ⟨9, 1⟩ .fail).2 = .done 0 none := by
  decide

end Lumen
